import Mathlib

/-!
Shallow embedding of the PersonalizedNewsAssistant repository
(src/news_chatbot.py, the canonical dispatch loop, and src/news_agent.py,
the agent-framework precursor).  External providers (OpenAI chat and
moderation endpoints, NewsAPI, OpenWeatherMap, Yahoo Finance) are modelled
as oracle values supplied to each turn; the functions below translate the
Python control flow over those oracles.  Machine floats of the source are
modelled as rationals; Python dicts keyed by strings are modelled as
ordered association lists (Python dicts preserve insertion order).
-/

/-! ## Python string primitives (ASCII semantics of str.lower/upper/strip/title/capitalize) -/

/-- ASCII lowering of one character, as Python str.lower acts on ASCII text. -/
def lowerChar (c : Char) : Char :=
  if c.toNat ≥ 65 ∧ c.toNat ≤ 90 then Char.ofNat (c.toNat + 32) else c

/-- ASCII uppering of one character. -/
def upperChar (c : Char) : Char :=
  if c.toNat ≥ 97 ∧ c.toNat ≤ 122 then Char.ofNat (c.toNat - 32) else c

/-- Python str.lower on ASCII text (defined structurally so it evaluates in the kernel). -/
def pyLower (s : String) : String := String.mk (s.data.map lowerChar)

/-- ASCII whitespace recognized by Python str.strip. -/
def isSpaceChar (c : Char) : Bool := c == ' ' || c == '\t' || c == '\n' || c == '\r'

/-- Python str.strip on ASCII text. -/
def pyStrip (s : String) : String :=
  String.mk (((s.data.dropWhile isSpaceChar).reverse.dropWhile isSpaceChar).reverse)

/-- ASCII letter test (Python's cased-character test restricted to ASCII). -/
def isAsciiAlpha (c : Char) : Bool :=
  (c.toNat ≥ 65 && c.toNat ≤ 90) || (c.toNat ≥ 97 && c.toNat ≤ 122)

/-- Auxiliary for pyTitle: the Bool says whether the previous character was a letter. -/
def pyTitleAux : List Char → Bool → List Char
  | [], _ => []
  | c :: cs, prevAlpha =>
      (if prevAlpha then lowerChar c else upperChar c) :: pyTitleAux cs (isAsciiAlpha c)

/-- Python str.title on ASCII text: first letter of each word upper, the rest lower. -/
def pyTitle (s : String) : String := String.mk (pyTitleAux s.data false)

/-- Python str.capitalize on ASCII text: first character upper, the rest lower. -/
def pyCapitalize (s : String) : String :=
  match s.data with
  | [] => ""
  | c :: cs => String.mk (upperChar c :: cs.map lowerChar)

/-! ## Numeric helpers -/

/-- Python round(x, 2) modelled over the rationals (ties are a float artefact
the model resolves by ordinary rounding). -/
def round2 (q : ℚ) : ℚ := ((round (q * 100) : ℤ) : ℚ) / 100

/-- Two-digit zero padding for the fractional part of a price string. -/
def pad2 (n : ℕ) : String := if n < 10 then "0" ++ toString n else toString n

/-- Python f-string formatting with :.2f over the rationals. -/
def fmt2 (q : ℚ) : String :=
  let n : ℤ := round (q * 100)
  let a := n.natAbs
  (if n < 0 then "-" else "") ++ toString (a / 100) ++ "." ++ pad2 (a % 100)

/-! ## Moderation gate (news_chatbot.check_moderation) -/

/-- The payload of one OpenAI moderation result: the overall flag and the
category dictionary of results.categories.model_dump(). -/
structure ModResults where
  flagged : Bool
  categories : List (String × Bool)
deriving DecidableEq

/-- The dictionary check_moderation returns. -/
structure ModerationVerdict where
  flagged : Bool
  categories : List (String × Bool)
deriving DecidableEq

/-- news_chatbot.check_moderation: keeps the flagged categories; on any
provider exception it prints and returns flagged=False with no categories. -/
def check_moderation (resp : Except String ModResults) : ModerationVerdict :=
  match resp with
  | .ok r => { flagged := r.flagged, categories := r.categories.filter (fun cb => cb.2) }
  | .error _ => { flagged := false, categories := [] }

/-! ## Translation (news_chatbot.translate_text) -/

/-- news_chatbot.translate_text: validates the inputs, asks the chat
completion provider (the oracle argument is the returned message content, or
the raised exception), strips the reply, rejects an empty translation; every
failure path is caught and falls back to returning the input text. -/
def translate_text (text target_lang : String) (api : Except String String) : String :=
  if text = "" then text
  else if target_lang = "" then text
  else
    match api with
    | .error _ => text
    | .ok content =>
        let translated := pyStrip content
        if translated = "" then text
        else translated

/-! ## Weather adapter (news_chatbot.get_weather) -/

/-- A JSON-ish value stored in the weather dictionary. -/
inductive WVal
  | str (s : String)
  | num (q : ℚ)
deriving DecidableEq

/-- The main object of an OpenWeatherMap response; a missing key is none. -/
structure OWMMain where
  temp : Option ℚ
  feels_like : Option ℚ
  humidity : Option ℚ
deriving DecidableEq

/-- One element of the weather array of an OpenWeatherMap response. -/
structure OWMWeatherItem where
  description : Option String
deriving DecidableEq

/-- The wind object of an OpenWeatherMap response. -/
structure OWMWind where
  speed : Option ℚ
deriving DecidableEq

/-- An OpenWeatherMap response body; a missing top-level key is none. -/
structure OWMResp where
  name : Option String
  main : Option OWMMain
  weather : Option (List OWMWeatherItem)
  wind : Option OWMWind
  dt : Option ℤ
deriving DecidableEq

/-- Lookup in an ordered string-keyed dictionary of weather values. -/
def dictFind : List (String × WVal) → String → Option WVal
  | [], _ => none
  | kv :: rest, k => if kv.1 == k then some kv.2 else dictFind rest k

/-- news_chatbot.get_weather.  Arguments beyond the source's city and units:
the API key read from the environment, the local-time formatter used for the
timestamp field (datetime.fromtimestamp(...).strftime, environment
dependent), and the HTTP outcome.  Returns the dictionary the Python
function returns together with a flag recording whether the network request
was performed.  Every exception path of the source yields a single-key
error dictionary; exception texts of inner field accesses are abbreviated. -/
def get_weather (city units : String) (apiKey : Option String) (fmtTime : ℤ → String)
    (net : Except String OWMResp) : List (String × WVal) × Bool :=
  if city = "" then
    ([("error", WVal.str "Error processing weather data: City name must be a non-empty string")], false)
  else if units ≠ "metric" ∧ units ≠ "imperial" then
    ([("error", WVal.str "Error processing weather data: Units must be either 'metric' or 'imperial'")], false)
  else if apiKey.getD "" = "" then
    ([("error", WVal.str "Error processing weather data: OpenWeather API key not found in environment variables")], false)
  else
    match net with
    | .error e => ([("error", WVal.str ("Weather API request failed: " ++ e))], true)
    | .ok data =>
      match data.name, data.main, data.weather, data.wind, data.dt with
      | some nm, some mn, some wList, some wd, some t =>
        match mn.temp, mn.feels_like, mn.humidity, wd.speed with
        | some temp, some feels, some hum, some spd =>
          match wList with
          | [] => ([("error", WVal.str "Unexpected error: list index out of range")], true)
          | item :: _ =>
            match item.description with
            | some desc =>
                ([("city", WVal.str nm),
                  ("temperature", WVal.num temp),
                  ("feels_like", WVal.num feels),
                  ("humidity", WVal.num hum),
                  ("description", WVal.str (pyCapitalize desc)),
                  ("wind_speed", WVal.num spd),
                  ("timestamp", WVal.str (fmtTime t))], true)
            | none => ([("error", WVal.str "Error processing weather data: missing field")], true)
        | _, _, _, _ => ([("error", WVal.str "Error processing weather data: missing field")], true)
      | _, _, _, _, _ =>
          ([("error", WVal.str "Error processing weather data: Missing required fields in weather data")], true)

/-- Rendering a weather value into the reply text (str of a float is
modelled by the two-decimal formatter). -/
def showWVal : WVal → String
  | .str s => s
  | .num q => fmt2 q

/-- Outcome of the chatbot loop's get_weather branch. -/
inductive WOutcome
  | rendered (reply : String)
  | fallbackMsg (reply : String)
  | keyError
deriving DecidableEq

/-- The chatbot loop's rendering of a weather dictionary: the source tests
the dictionary for truthiness, then reads the seven report fields directly;
a missing field raises KeyError, which the turn's outer except swallows. -/
def renderWeatherReply (city units : String) (d : List (String × WVal)) : WOutcome :=
  if d.isEmpty then
    WOutcome.fallbackMsg ("Sorry, I couldn't fetch weather information for " ++ city ++ ".")
  else
    match dictFind d "temperature", dictFind d "feels_like", dictFind d "humidity",
          dictFind d "description", dictFind d "wind_speed", dictFind d "timestamp" with
    | some t, some f, some h, some de, some w, some ts =>
        let unitSym := if units = "metric" then "°C" else "°F"
        let windUnit := if units = "metric" then "m/s" else "mph"
        WOutcome.rendered
          ("Current weather in " ++ city ++ ":\n" ++
           "Temperature: " ++ showWVal t ++ unitSym ++ "\n" ++
           "Feels like: " ++ showWVal f ++ unitSym ++ "\n" ++
           "Humidity: " ++ showWVal h ++ "%\n" ++
           "Conditions: " ++ showWVal de ++ "\n" ++
           "Wind speed: " ++ showWVal w ++ " " ++ windUnit ++ "\n" ++
           "Last updated: " ++ showWVal ts)
    | _, _, _, _, _, _ => WOutcome.keyError

/-! ## Commodity prices, news_chatbot variant -/

/-- One reported quote: price, change and change_percent, each rounded. -/
structure Quote where
  price : ℚ
  change : ℚ
  change_percent : ℚ
deriving DecidableEq

/-- The fixed catalog of news_chatbot.get_commodity_prices. -/
def availableCommodities : List (String × String) :=
  [("Gold", "GC=F"), ("Silver", "SI=F"), ("Copper", "HG=F"), ("Platinum", "PL=F"),
   ("Palladium", "PA=F"), ("Crude Oil", "CL=F"), ("Brent Crude", "BZ=F"), ("Natural Gas", "NG=F")]

/-- The commodities_to_fetch computation: an empty (falsy) request list
selects the whole catalog, otherwise the catalog is filtered by title-cased
name membership in the title-cased request list. -/
def commoditiesToFetch (commodities_list : List String) : List (String × String) :=
  if commodities_list.isEmpty then availableCommodities
  else availableCommodities.filter
    (fun nc => (commodities_list.map pyTitle).contains (pyTitle nc.1))

/-- The per-symbol quote built from the day's open and close. -/
def mkQuote (oc : ℚ × ℚ) : Quote :=
  { price := round2 oc.2,
    change := round2 (oc.2 - oc.1),
    change_percent := round2 ((oc.2 - oc.1) / oc.1 * 100) }

/-- news_chatbot.get_commodity_prices.  hist gives each ticker symbol's
daily (open, close), none standing for an empty frame or a per-symbol
exception, both of which the loop skips.  When no requested name resolves
the raised ValueError is caught by the outer handler, which returns an
empty dictionary.  Names in the catalog are unique, so the result
dictionary is the iteration-ordered list of resolved quotes. -/
def get_commodity_prices (commodities_list : List String)
    (hist : String → Option (ℚ × ℚ)) : List (String × Quote) :=
  if (commoditiesToFetch commodities_list).isEmpty then []
  else (commoditiesToFetch commodities_list).filterMap
    (fun nc => (hist nc.2).map (fun oc => (nc.1, mkQuote oc)))

/-! ## Commodity prices, news_agent variant -/

/-- The smaller fixed catalog of news_agent.get_commodity_prices. -/
def available_commodities_agent : List (String × String) :=
  [("Gold", "GC=F"), ("Silver", "SI=F"), ("Copper", "HG=F"), ("Crude Oil", "CL=F")]

/-- Lookup in an ordered string dictionary (dict.get of the source). -/
def lookupIn : List (String × String) → String → Option String
  | [], _ => none
  | kv :: rest, k => if kv.1 == k then some kv.2 else lookupIn rest k

/-- available_commodities.get(commodity) of the agent variant (exact-case lookup). -/
def lookupCommodity (name : String) : Option String :=
  lookupIn available_commodities_agent name

/-- Python dict insertion over an ordered association list: an existing key
keeps its position and takes the new value, a new key is appended. -/
def dictInsert : List (String × String) → String → String → List (String × String)
  | [], k, v => [(k, v)]
  | kv :: rest, k, v => if kv.1 == k then (k, v) :: rest else kv :: dictInsert rest k v

/-- Lookup in an ordered string dictionary. -/
def dget : List (String × String) → String → Option String
  | [], _ => none
  | kv :: rest, k => if kv.1 == k then some kv.2 else dget rest k

/-- news_agent.get_commodity_prices: each requested name is looked up in the
catalog; an unknown name is recorded as "Not supported", a known one as its
formatted price or as the per-symbol error marker (hist is the Yahoo
Finance outcome per ticker).  The source finally joins the dictionary into
lines; the dictionary itself is the model's result.  The loop body is the
named step function below. -/
def agentInsertStep (hist : String → Except String ℚ)
    (results : List (String × String)) (commodity : String) : List (String × String) :=
  match lookupCommodity commodity with
  | none => dictInsert results commodity "Not supported"
  | some symbol =>
    match hist symbol with
    | .ok p => dictInsert results commodity ("$" ++ fmt2 p)
    | .error e => dictInsert results commodity ("Error: " ++ e)

def get_commodity_prices_agent (commodities_list : List String)
    (hist : String → Except String ℚ) : List (String × String) :=
  commodities_list.foldl (agentInsertStep hist) []

/-- The value news_agent.get_commodity_prices records for one requested name. -/
def agentQuoteValue (name : String) (hist : String → Except String ℚ) : String :=
  match lookupCommodity name with
  | none => "Not supported"
  | some symbol =>
    match hist symbol with
    | .ok p => "$" ++ fmt2 p
    | .error e => "Error: " ++ e

/-! ## Trending topics (news_chatbot.get_trending_topics) -/

/-- One article of the top-headlines response; a missing or null field is none. -/
structure TrendArticle where
  title : Option String
  description : Option String
deriving DecidableEq

/-- The entry kept for one article: the title when it is present and
non-empty (Python truthiness), otherwise the description with the source's
default. -/
def trendEntry (a : TrendArticle) : String :=
  let descr := a.description.getD "No description available"
  match a.title with
  | none => descr
  | some t => if t = "" then descr else t

/-- news_chatbot.get_trending_topics: none models every caught failure
(missing key, transport error, non-200 status), which returns an empty
list; otherwise the articles are mapped to entries and truncated to 10. -/
def get_trending_topics (d : Option (List TrendArticle)) : List String :=
  match d with
  | none => []
  | some articles => (articles.map trendEntry).take 10

/-- The loop body rendering of trending topics, enumerate(..., start=1). -/
def renderTrendingAux : ℕ → List String → String
  | _, [] => ""
  | n, t :: ts => toString n ++ ". " ++ t ++ "\n" ++ renderTrendingAux (n + 1) ts

/-- The chatbot reply for the trending command. -/
def renderTrending (topics : List String) : String :=
  "Here are the current trending topics:\n" ++ renderTrendingAux 1 topics

/-! ## Session state and the dispatch loop (news_chatbot.chatbot) -/

/-- Role of a transcript message. -/
inductive Role
  | system
  | user
  | assistant
deriving DecidableEq, BEq

/-- One transcript message. -/
structure Message where
  role : Role
  content : String
deriving DecidableEq, BEq

/-- One cached news article; title, description and url are read directly
by the loop (the model takes them as present strings), content stays optional. -/
structure Article where
  title : String
  description : String
  url : String
  content : Option String
deriving DecidableEq

/-- The session state the loop mutates: the transcript, the cached article
list, and the last rendered reply. -/
structure SState where
  context : List Message
  articles : List Article
  last_response : String
deriving DecidableEq

/-- The function_call payload the classification message may carry, already
decoded from its JSON arguments with the dispatcher's defaults applied. -/
inductive FunctionCall
  | fetch_and_summarize (topic : String) (target_lang : String)
  | translate_text (target_lang : String)
  | fetch_news (topic : String) (target_lang : String) (page_size : ℕ)
  | summarize_article_by_index (index : ℤ)
  | get_commodity_prices (commodities : List String) (currency : String)
  | get_weather (city : String) (units : String)
  | unknown (name : String)
deriving DecidableEq

/-- The classification message: optional free text plus optional tool call. -/
structure ChatMessage where
  content : Option String
  function_call : Option FunctionCall
deriving DecidableEq

/-- The external world of one turn: every provider outcome the turn may
consume, as the chatbot would observe it. -/
structure Oracle where
  modInput : ModerationVerdict
  modOutput : ModerationVerdict
  chat : Except String ChatMessage
  trendingData : Option (List TrendArticle)
  newsData : Option (List Article)
  summarizer : Article → String
  translator : String → String → Except String String
  hist : String → Option (ℚ × ℚ)
  convReply : String
  owmKey : Option String
  owm : Except String OWMResp
  fmtTime : ℤ → String

/-- Provider traffic of one turn: moderation calls, chat-completion calls,
trending fetches, and whether the turn ended the session. -/
structure Effects where
  modCalls : ℕ
  chatCalls : ℕ
  trendingCalls : ℕ
  exited : Bool
deriving DecidableEq

/-- Number of chat-completion calls one translate_text invocation performs:
its input validation short-circuits before the provider call. -/
def translateCalls (text target_lang : String) : ℕ :=
  if text = "" ∨ target_lang = "" then 0 else 1

/-- translate_text as the loop invokes it, reading the provider through the
turn's oracle. -/
def transText (o : Oracle) (text lang : String) : String :=
  translate_text text lang (o.translator text lang)

/-- The fetch_news adapter as the loop sees it: a caught failure (none)
degrades to an empty article list. -/
def fetch_news (d : Option (List Article)) : List Article :=
  match d with
  | none => []
  | some a => a

/-- Rendering of fetch_and_summarize results, enumerate(..., 1). -/
def renderSummariesAux : ℕ → List (String × String) → String
  | _, [] => ""
  | i, ts :: rest =>
      toString i ++ ". " ++ ts.1 ++ "\n" ++ ts.2 ++ "\n\n" ++ renderSummariesAux (i + 1) rest

/-- Rendering of fetch_news results, enumerate(..., start=1). -/
def renderNewsAux : ℕ → List Article → String
  | _, [] => ""
  | i, a :: rest =>
      toString i ++ ". " ++ a.title ++ " \n Description: " ++ a.description ++
        " \n (URL: " ++ a.url ++ ")\n" ++ renderNewsAux (i + 1) rest

/-- The summarize_article_by_index branch of the loop: the 1-based index is
shifted, bounds-checked against the cached list, and either a summary (one
chat call) or the fixed bounds-error message becomes the last response; the
cached list itself is read, never written. -/
def summarizeBranch (s : SState) (index : ℤ) (summ : Article → String) : SState × ℕ :=
  if 0 ≤ index - 1 ∧ index - 1 < (s.articles.length : ℤ) then
    match s.articles.get? (index - 1).toNat with
    | some article => ({ s with last_response := "Here's the summary:\n" ++ summ article }, 1)
    | none => (s, 1)
  else
    ({ s with last_response := "Invalid article index. Please try again." }, 0)

/-- The function-call dispatch of the loop body.  Returns the updated state
and the number of chat-completion calls the branch performs.  The branches
write articles and last_response only; none touches the transcript. -/
def dispatchFC (o : Oracle) (s : SState) : FunctionCall → SState × ℕ
  | .fetch_and_summarize topic target_lang =>
      let arts := fetch_news o.newsData
      let base := arts.map (fun a => (a.title, o.summarizer a))
      let summaries :=
        if target_lang ≠ "en" then
          base.map (fun p => (transText o p.1 target_lang, transText o p.2 target_lang))
        else base
      let trCalls :=
        if target_lang ≠ "en" then
          base.foldl (fun n p => n + translateCalls p.1 target_lang + translateCalls p.2 target_lang) 0
        else 0
      let reply := "Here are the latest articles about '" ++ topic ++ "':\n\n" ++
        renderSummariesAux 1 summaries
      ({ s with last_response := reply }, arts.length + trCalls)
  | .translate_text target_lang =>
      (s, translateCalls s.last_response target_lang)
  | .fetch_news topic target_lang _page_size =>
      let arts0 := fetch_news o.newsData
      let arts :=
        if target_lang ≠ "en" then
          arts0.map (fun a => { a with
            title := transText o a.title target_lang,
            description := transText o a.description target_lang })
        else arts0
      let trCalls :=
        if target_lang ≠ "en" then
          arts0.foldl (fun n a => n + translateCalls a.title target_lang + translateCalls a.description target_lang) 0
        else 0
      let reply := "Here are the top " ++ toString arts.length ++ " articles for '" ++ topic ++
        "':\n" ++ renderNewsAux 1 arts
      ({ s with articles := arts, last_response := reply }, trCalls)
  | .summarize_article_by_index index =>
      summarizeBranch s index o.summarizer
  | .get_commodity_prices commodities _currency =>
      let prices := get_commodity_prices commodities o.hist
      if prices.isEmpty then
        ({ s with last_response := "Sorry, I couldn't find price information for the requested commodities." }, 0)
      else
        ({ s with last_response := o.convReply }, 1)
  | .get_weather city units =>
      let wd := (get_weather city units o.owmKey o.fmtTime o.owm).1
      match renderWeatherReply city units wd with
      | .rendered reply => ({ s with last_response := reply }, 0)
      | .fallbackMsg reply => ({ s with last_response := reply }, 0)
      | .keyError => (s, 0)
  | .unknown _ => (s, 0)

/-- Handling of the classification message's free-text content: empty or
absent content is skipped, flagged content is refused (one moderation
call), accepted content joins the transcript.  Returns the state and the
number of moderation calls made. -/
def contentStep (o : Oracle) (s1 : SState) (msg : ChatMessage) : SState × ℕ :=
  match msg.content with
  | none => (s1, 0)
  | some c =>
    if c = "" then (s1, 0)
    else if o.modOutput.flagged then (s1, 1)
    else ({ s1 with context := s1.context ++ [⟨Role.assistant, c⟩] }, 1)

/-- The classification phase of one turn: the chat-completion call, content
handling, and function-call dispatch; a raised classification call is
caught by the loop's except. -/
def classifyTurn (o : Oracle) (s1 : SState) : SState × Effects :=
  match o.chat with
  | .error _ => (s1, ⟨1, 1, 0, false⟩)
  | .ok msg =>
    let cs := contentStep o s1 msg
    match msg.function_call with
    | none => (cs.1, ⟨1 + cs.2, 1, 0, false⟩)
    | some fc =>
      let d := dispatchFC o cs.1 fc
      (d.1, ⟨1 + cs.2, 1 + d.2, 0, false⟩)

/-- One iteration of news_chatbot.chatbot's while loop over the stripped
input line: the exit and help commands return before any provider call; the
input moderation gate runs next; the trending command short-circuits before
the classification call; otherwise the non-empty input joins the
transcript, classification runs, flagged or accepted free text is handled,
and an attached function call is dispatched.  Exceptions of the try block
are caught by the loop, leaving the state as built so far. -/
def chatbotStep (s : SState) (raw : String) (o : Oracle) : SState × Effects :=
  let user_input := pyStrip raw
  let low := pyLower user_input
  if low = "exit" then (s, ⟨0, 0, 0, true⟩)
  else if low = "help" then (s, ⟨0, 0, 0, false⟩)
  else if o.modInput.flagged then (s, ⟨1, 0, 0, false⟩)
  else if low = "trending" then
    let topics := get_trending_topics o.trendingData
    if topics.isEmpty then (s, ⟨1, 0, 1, false⟩)
    else ({ s with last_response := renderTrending topics }, ⟨1, 0, 1, false⟩)
  else
    let s1 :=
      if user_input = "" then s
      else { s with context := s.context ++ [⟨Role.user, user_input⟩] }
    classifyTurn o s1

/-- Opening sentence of the loop's system prompt (the remaining instruction
lines of the prompt do not affect any modelled behaviour). -/
def systemPrompt : String :=
  "You are a helpful assistant that can fetch, summarize, and translate news."

/-- The state the session starts from: the system message alone, no cached
articles, no last response. -/
def initState : SState :=
  { context := [⟨Role.system, systemPrompt⟩], articles := [], last_response := "" }

/-- A whole session: the loop folded over the successive input lines with
their per-turn provider outcomes (turns after an exit leave the state
unchanged in the source; the fold is over whatever turns ran). -/
def runTurns : SState → List (String × Oracle) → SState
  | s, [] => s
  | s, t :: rest => runTurns (chatbotStep s t.1 t.2).1 rest

/-! ## The news_agent dispatcher -/

/-- Provider traffic of one news_agent.chatbot turn. -/
structure AgentEffects where
  exited : Bool
  agentCalls : ℕ
deriving DecidableEq

/-- One iteration of news_agent.chatbot's while loop: the stripped input
lowercased and matched against the exit and quit commands ends the session
before agent.run; anything else goes to the agent. -/
def agentStep (raw : String) : AgentEffects :=
  let low := pyLower (pyStrip raw)
  if low = "exit" ∨ low = "quit" then ⟨true, 0⟩ else ⟨false, 1⟩

/-! ## Concrete instances used by the witnesses -/

/-- A daily-history oracle with data for the gold future only. -/
def histC1 : String → Option (ℚ × ℚ) := fun sym =>
  if sym = "GC=F" then some (2000, 2010) else none

/-- A Yahoo Finance oracle for the agent variant: gold priced, the rest down. -/
def histGold : String → Except String ℚ := fun sym =>
  if sym = "GC=F" then .ok 2000 else .error "no data"

/-- A benign classification answer. -/
def chatNone : ChatMessage := { content := none, function_call := none }

/-- A clean moderation verdict. -/
def mvClean : ModerationVerdict := { flagged := false, categories := [] }

/-- A neutral oracle for witness turns; individual witnesses override the
fields their scenario needs. -/
def oracle0 : Oracle :=
  { modInput := mvClean
    modOutput := mvClean
    chat := .ok chatNone
    trendingData := some [{ title := none, description := some "A headline" },
                          { title := some "T2", description := none }]
    newsData := none
    summarizer := fun _ => "S"
    translator := fun _ _ => .ok "X"
    hist := histC1
    convReply := "C"
    owmKey := some "k"
    owm := .error "down"
    fmtTime := fun _ => "" }

/-- A classification message asking for an out-of-bounds article summary. -/
def chatSumm5 : ChatMessage :=
  { content := none, function_call := some (FunctionCall.summarize_article_by_index 5) }

/-- The witness oracle whose classification asks for an out-of-bounds
article summary. -/
def oracle6 : Oracle :=
  { oracle0 with chat := .ok chatSumm5 }

/-! ## Helper lemmas -/

theorem mem_commoditiesToFetch {nc : String × String} {lst : List String}
    (h : nc ∈ commoditiesToFetch lst) : nc ∈ availableCommodities := by
  unfold commoditiesToFetch at h
  split at h
  · exact h
  · exact List.mem_of_mem_filter h

theorem beqT {a b : String} (h : a = b) : (a == b) = true := by simpa using h

theorem beqF {a b : String} (h : a ≠ b) : (a == b) = false := by simpa using h

theorem dget_dictInsert_self (d : List (String × String)) (k v : String) :
    dget (dictInsert d k v) k = some v := by
  induction d with
  | nil => simp [dictInsert, dget]
  | cons kv rest ih =>
    by_cases h : kv.1 = k
    · simp [dictInsert, dget, h]
    · rw [dictInsert, if_neg (by simp [beqF h]), dget, if_neg (by simp [beqF h])]
      exact ih

theorem dget_dictInsert_ne (d : List (String × String)) (k k' v : String) (h : k' ≠ k) :
    dget (dictInsert d k v) k' = dget d k' := by
  induction d with
  | nil => simp [dictInsert, dget, beqF (Ne.symm h)]
  | cons kv rest ih =>
    by_cases hk : kv.1 = k
    · simp [dictInsert, dget, beqT hk, beqF (Ne.symm h), beqF (hk ▸ Ne.symm h)]
    · by_cases hk' : kv.1 = k'
      · simp [dictInsert, dget, beqF hk, beqT hk']
      · rw [dictInsert, if_neg (by simp [beqF hk]), dget, if_neg (by simp [beqF hk']),
          dget, if_neg (by simp [beqF hk'])]
        exact ih

theorem agentInsertStep_eq (hist : String → Except String ℚ)
    (acc : List (String × String)) (c : String) :
    agentInsertStep hist acc c = dictInsert acc c (agentQuoteValue c hist) := by
  unfold agentInsertStep agentQuoteValue
  cases lookupCommodity c with
  | none => rfl
  | some sym =>
    dsimp only
    cases hist sym <;> rfl

theorem agent_foldl_dget (hist : String → Except String ℚ) :
    ∀ (lst : List String) (acc : List (String × String)) (name : String),
      (name ∈ lst ∨ dget acc name = some (agentQuoteValue name hist)) →
      dget (lst.foldl (agentInsertStep hist) acc) name = some (agentQuoteValue name hist) := by
  intro lst
  induction lst with
  | nil =>
    intro acc name h
    rcases h with h | h
    · simp at h
    · simpa using h
  | cons c cs ih =>
    intro acc name h
    rw [List.foldl_cons, agentInsertStep_eq]
    by_cases hnc : name = c
    · subst hnc
      exact ih _ _ (Or.inr (dget_dictInsert_self acc name (agentQuoteValue name hist)))
    · rcases h with h | h
      · rcases List.mem_cons.mp h with h | h
        · exact absurd h hnc
        · exact ih _ _ (Or.inl h)
      · refine ih _ _ (Or.inr ?_)
        rw [dget_dictInsert_ne acc c name _ hnc]
        exact h

/-! ## Claim theorems -/

/-- Claim C1: every quote reported by the news_chatbot get_commodity_prices
comes from a catalog symbol whose daily data yielded an open and a close,
and its change and change_percent fields are close - open and
(close - open) / open * 100, each rounded to 2 decimal places. -/
theorem commodity_change_formula :
    ∀ (lst : List String) (hist : String → Option (ℚ × ℚ)) (name : String) (q : Quote),
      (name, q) ∈ get_commodity_prices lst hist →
      ∃ sym o c, (name, sym) ∈ availableCommodities ∧ hist sym = some (o, c) ∧
        q.change = round2 (c - o) ∧ q.change_percent = round2 ((c - o) / o * 100) := by
  intro lst hist name q h
  unfold get_commodity_prices at h
  split at h
  · simp at h
  · obtain ⟨nc, hmem, hf⟩ := List.mem_filterMap.mp h
    obtain ⟨oc, hoc, heq⟩ := Option.map_eq_some'.mp hf
    obtain ⟨o, c⟩ := oc
    obtain ⟨h1, h2⟩ := Prod.mk.injEq .. ▸ heq
    refine ⟨nc.2, o, c, ?_, hoc, ?_, ?_⟩
    · rw [← h1, Prod.mk.eta]
      exact mem_commoditiesToFetch hmem
    · rw [← h2]
      rfl
    · rw [← h2]
      rfl

/-- Claim C1 witness: with daily data (open 2000, close 2010) for the gold
future, the reported Gold quote satisfies the rounded formulas. -/
theorem commodity_change_formula_witness :
    ∃ sym o c, (("Gold" : String), sym) ∈ availableCommodities ∧ histC1 sym = some (o, c) ∧
      (mkQuote (2000, 2010)).change = round2 (c - o) ∧
      (mkQuote (2000, 2010)).change_percent = round2 ((c - o) / o * 100) :=
  commodity_change_formula [] histC1 "Gold" (mkQuote (2000, 2010)) (by
    show _ ∈ get_commodity_prices [] histC1
    simp [get_commodity_prices, commoditiesToFetch, availableCommodities, histC1])

/-- Claim C2: news_agent's get_commodity_prices records, for every requested
name, exactly its catalog outcome — unknown names individually as
"Not supported", known names as a quote or per-symbol error marker — and the
gold-and-unicorns request yields the Gold quote plus the "Not supported"
marker without raising. -/
theorem commodity_unsupported_marker :
    (∀ (lst : List String) (hist : String → Except String ℚ) (name : String),
        name ∈ lst →
        dget (get_commodity_prices_agent lst hist) name = some (agentQuoteValue name hist)) ∧
    get_commodity_prices_agent ["Gold", "unicorns"] histGold =
      [("Gold", "$" ++ fmt2 2000), ("unicorns", "Not supported")] := by
  constructor
  · intro lst hist name h
    exact agent_foldl_dget hist lst [] name (Or.inl h)
  · rfl

/-- Claim C2 witness: the theorem applied to the gold-and-unicorns request
at the unknown name. -/
theorem commodity_unsupported_marker_witness :
    dget (get_commodity_prices_agent ["Gold", "unicorns"] histGold) "unicorns" =
      some (agentQuoteValue "unicorns" histGold) :=
  commodity_unsupported_marker.1 ["Gold", "unicorns"] histGold "unicorns" (by simp)

/-- Claim C3: when the moderation provider call raises, check_moderation
returns flagged=false with an empty category set (and, being a total
function of the provider outcome, never propagates the exception). -/
theorem moderation_fail_open :
    ∀ e : String,
      check_moderation (Except.error e) = { flagged := false, categories := [] } :=
  fun _ => rfl

/-- Claim C4: when the translation provider call raises, or returns a
translation that is empty after stripping, translate_text returns the
original input text itself. -/
theorem translation_fallback :
    ∀ (text target_lang : String),
      (∀ e : String, translate_text text target_lang (Except.error e) = text) ∧
      (∀ resp : String, pyStrip resp = "" →
        translate_text text target_lang (Except.ok resp) = text) := by
  intro text target_lang
  constructor
  · intro e
    unfold translate_text
    split_ifs <;> rfl
  · intro resp h
    unfold translate_text
    split_ifs <;> simp [h]

/-- Claim C4 witness: a raised provider call and a whitespace-only
translation both fall back to the original text. -/
theorem translation_fallback_witness :
    translate_text "Hello" "fr" (Except.error "timeout") = "Hello" ∧
    translate_text "Hello" "fr" (Except.ok "  ") = "Hello" :=
  ⟨(translation_fallback "Hello" "fr").1 "timeout",
   (translation_fallback "Hello" "fr").2 "  " (by decide)⟩

/-- Claim C5: a weather request whose units are neither metric nor imperial
is rejected with a single-key error dictionary and the network request is
never performed. -/
theorem weather_units_validation :
    ∀ (city units : String) (apiKey : Option String) (fmtTime : ℤ → String)
      (net : Except String OWMResp),
      units ≠ "metric" → units ≠ "imperial" →
      (get_weather city units apiKey fmtTime net).2 = false ∧
      ∃ m, (get_weather city units apiKey fmtTime net).1 = [("error", WVal.str m)] := by
  intro city units apiKey fmtTime net h1 h2
  unfold get_weather
  by_cases hc : city = ""
  · simp [hc]
  · simp [hc, h1, h2]

/-- Claim C5 witness: a kelvin request is rejected without a network call. -/
theorem weather_units_validation_witness :
    (get_weather "Paris" "kelvin" (some "k") (fun _ => "") (Except.error "down")).2 = false ∧
    ∃ m, (get_weather "Paris" "kelvin" (some "k") (fun _ => "") (Except.error "down")).1 =
      [("error", WVal.str m)] :=
  weather_units_validation "Paris" "kelvin" (some "k") (fun _ => "") (Except.error "down")
    (by decide) (by decide)

theorem summarizeBranch_articles (s : SState) (i : ℤ) (summ : Article → String) :
    (summarizeBranch s i summ).1.articles = s.articles := by
  unfold summarizeBranch
  split
  · split <;> rfl
  · rfl

theorem summarizeBranch_context (s : SState) (i : ℤ) (summ : Article → String) :
    (summarizeBranch s i summ).1.context = s.context := by
  unfold summarizeBranch
  split
  · split <;> rfl
  · rfl

theorem dispatchFC_context (o : Oracle) (s : SState) (fc : FunctionCall) :
    (dispatchFC o s fc).1.context = s.context := by
  cases fc with
  | fetch_and_summarize topic lang => rfl
  | translate_text lang => rfl
  | fetch_news topic lang ps => rfl
  | summarize_article_by_index i => exact summarizeBranch_context s i o.summarizer
  | get_commodity_prices cs cur =>
    simp only [dispatchFC]
    split <;> rfl
  | get_weather city units =>
    simp only [dispatchFC]
    split <;> rfl
  | unknown n => rfl

theorem contentStep_articles (o : Oracle) (s1 : SState) (msg : ChatMessage) :
    (contentStep o s1 msg).1.articles = s1.articles := by
  unfold contentStep
  split
  · rfl
  · split_ifs <;> rfl

theorem contentStep_context (o : Oracle) (s1 : SState) (msg : ChatMessage) :
    ∃ t : List Message, (contentStep o s1 msg).1.context = s1.context ++ t ∧
      t.all (fun m => m.role != Role.system) = true := by
  unfold contentStep
  split
  · exact ⟨[], by simp⟩
  next c heq =>
    split_ifs
    · exact ⟨[], by simp⟩
    · exact ⟨[], by simp⟩
    · exact ⟨[⟨Role.assistant, c⟩], rfl, rfl⟩

theorem classifyTurn_articles_summarize (o : Oracle) (s1 : SState) (i : ℤ) (cnt : Option String)
    (hchat : o.chat = Except.ok ⟨cnt, some (FunctionCall.summarize_article_by_index i)⟩) :
    (classifyTurn o s1).1.articles = s1.articles := by
  simp only [classifyTurn, hchat, dispatchFC, summarizeBranch_articles, contentStep_articles]

theorem chatbotStep_articles_summarize (s : SState) (raw : String) (o : Oracle)
    (i : ℤ) (cnt : Option String)
    (hchat : o.chat = Except.ok ⟨cnt, some (FunctionCall.summarize_article_by_index i)⟩) :
    (chatbotStep s raw o).1.articles = s.articles := by
  unfold chatbotStep
  dsimp only
  split_ifs <;>
    first
      | rfl
      | rw [classifyTurn_articles_summarize o _ i cnt hchat]

/-- Claim C6: the summarize_article_by_index dispatch branch produces the
bounds-error message for every 1-based index outside the cached list's
range, and in all cases — including all surrounding turn handling — leaves
the cached article list unmutated. -/
theorem summarize_index_bounds :
    (∀ (s : SState) (i : ℤ) (summ : Article → String),
        (i < 1 ∨ (s.articles.length : ℤ) < i) →
        (summarizeBranch s i summ).1.last_response =
          "Invalid article index. Please try again.") ∧
    (∀ (s : SState) (i : ℤ) (summ : Article → String),
        (summarizeBranch s i summ).1.articles = s.articles ∧
        (summarizeBranch s i summ).1.context = s.context) ∧
    (∀ (s : SState) (raw : String) (o : Oracle) (i : ℤ) (cnt : Option String),
        o.chat = Except.ok ⟨cnt, some (FunctionCall.summarize_article_by_index i)⟩ →
        (chatbotStep s raw o).1.articles = s.articles) := by
  refine ⟨?_, ?_, ?_⟩
  · intro s i summ h
    unfold summarizeBranch
    rw [if_neg (by omega)]
  · intro s i summ
    exact ⟨summarizeBranch_articles s i summ, summarizeBranch_context s i summ⟩
  · intro s raw o i cnt hchat
    exact chatbotStep_articles_summarize s raw o i cnt hchat

/-- Claim C6 witness: index 5 against the empty initial cache produces the
bounds-error message, leaves the cache unchanged, and a full dispatched
turn preserves the cache. -/
theorem summarize_index_bounds_witness :
    (summarizeBranch initState 5 (fun _ => "S")).1.last_response =
      "Invalid article index. Please try again." ∧
    (summarizeBranch initState 5 (fun _ => "S")).1.articles = initState.articles ∧
    (chatbotStep initState "hi" oracle6).1.articles = initState.articles :=
  ⟨summarize_index_bounds.1 initState 5 (fun _ => "S") (by decide),
   (summarize_index_bounds.2.1 initState 5 (fun _ => "S")).1,
   summarize_index_bounds.2.2 initState "hi" oracle6 5 none rfl⟩

/-- Claim C7: a trending turn short-circuits to the trending adapter (no
chat-completion call, one trending fetch), the adapter returns at most 10
entries substituting the description when the title is absent or empty, the
reply is the 1-based numbered rendering, the cached last reply becomes that
string and the transcript and article cache are untouched. -/
theorem trending_flow :
    (∀ (s : SState) (raw : String) (o : Oracle),
        pyLower (pyStrip raw) = "trending" →
        o.modInput.flagged = false →
        get_trending_topics o.trendingData ≠ [] →
        (chatbotStep s raw o).1.context = s.context ∧
        (chatbotStep s raw o).1.articles = s.articles ∧
        (chatbotStep s raw o).1.last_response =
          renderTrending (get_trending_topics o.trendingData) ∧
        (chatbotStep s raw o).2.trendingCalls = 1 ∧
        (chatbotStep s raw o).2.chatCalls = 0) ∧
    (∀ d : Option (List TrendArticle), (get_trending_topics d).length ≤ 10) ∧
    (∀ (arts : List TrendArticle) (i : ℕ), i < 10 →
        (get_trending_topics (some arts)).get? i = (arts.get? i).map trendEntry) ∧
    (∀ a : TrendArticle, a.title = none ∨ a.title = some "" →
        trendEntry a = a.description.getD "No description available") := by
  refine ⟨?_, ?_, ?_, ?_⟩
  · intro s raw o h hm hne
    obtain ⟨t, ts, htop⟩ := List.exists_cons_of_ne_nil hne
    unfold chatbotStep
    dsimp only
    rw [h, if_neg (by decide), if_neg (by decide), if_neg (by simp [hm]),
      if_pos rfl, htop]
    rw [if_neg (by simp)]
    exact ⟨rfl, rfl, rfl, rfl, rfl⟩
  · intro d
    cases d with
    | none => simp [get_trending_topics]
    | some arts => simp [get_trending_topics]
  · intro arts i hi
    unfold get_trending_topics
    rw [List.get?_take hi, List.get?_map]
  · intro a h
    rcases h with h | h <;> simp [trendEntry, h]

/-- Claim C7 witness: a mixed-case padded trending input against the
neutral oracle, plus the description fallback on a title-less article. -/
theorem trending_flow_witness :
    ((chatbotStep initState " TRENDING " oracle0).1.context = initState.context ∧
      (chatbotStep initState " TRENDING " oracle0).1.articles = initState.articles ∧
      (chatbotStep initState " TRENDING " oracle0).1.last_response =
        renderTrending (get_trending_topics oracle0.trendingData) ∧
      (chatbotStep initState " TRENDING " oracle0).2.trendingCalls = 1 ∧
      (chatbotStep initState " TRENDING " oracle0).2.chatCalls = 0) ∧
    trendEntry ⟨none, some "A headline"⟩ = "A headline" :=
  ⟨trending_flow.1 initState " TRENDING " oracle0 (by decide) rfl (by decide),
   (trending_flow.2.2.2 ⟨none, some "A headline"⟩ (Or.inl rfl)).trans rfl⟩

theorem classifyTurn_exited (o : Oracle) (s1 : SState) :
    (classifyTurn o s1).2.exited = false := by
  unfold classifyTurn
  split
  · rfl
  · dsimp only
    split <;> rfl

/-- Claim C8: the built-in commands are matched by exact case-insensitive
equality — a turn ends the chatbot session exactly when the lowered
stripped input is exit, and exit, help and trending turns perform no
chat-completion call (trending still runs one trending fetch when the
input clears moderation); the agent dispatcher ends the session exactly on
exit or quit, before any agent call. -/
theorem builtin_command_short_circuit :
    (∀ (s : SState) (raw : String) (o : Oracle),
        (chatbotStep s raw o).2.exited = true ↔ pyLower (pyStrip raw) = "exit") ∧
    (∀ (s : SState) (raw : String) (o : Oracle),
        pyLower (pyStrip raw) = "exit" →
        (chatbotStep s raw o).2.chatCalls = 0 ∧ (chatbotStep s raw o).1 = s) ∧
    (∀ (s : SState) (raw : String) (o : Oracle),
        pyLower (pyStrip raw) = "help" →
        (chatbotStep s raw o).2.chatCalls = 0 ∧ (chatbotStep s raw o).2.exited = false ∧
        (chatbotStep s raw o).1 = s) ∧
    (∀ (s : SState) (raw : String) (o : Oracle),
        pyLower (pyStrip raw) = "trending" →
        (chatbotStep s raw o).2.chatCalls = 0 ∧
        (o.modInput.flagged = false → (chatbotStep s raw o).2.trendingCalls = 1)) ∧
    (∀ raw : String,
        ((agentStep raw).exited = true ↔
          (pyLower (pyStrip raw) = "exit" ∨ pyLower (pyStrip raw) = "quit")) ∧
        ((agentStep raw).exited = true → (agentStep raw).agentCalls = 0)) := by
  refine ⟨?_, ?_, ?_, ?_, ?_⟩
  · intro s raw o
    unfold chatbotStep
    dsimp only
    split_ifs with h1 h2 h3 h4 <;>
      simp [h1, classifyTurn_exited]
  · intro s raw o h
    unfold chatbotStep
    dsimp only
    rw [h, if_pos rfl]
    exact ⟨rfl, rfl⟩
  · intro s raw o h
    unfold chatbotStep
    dsimp only
    rw [h, if_neg (by decide), if_pos rfl]
    exact ⟨rfl, rfl, rfl⟩
  · intro s raw o h
    unfold chatbotStep
    dsimp only
    rw [h, if_neg (by decide), if_neg (by decide)]
    by_cases hf : o.modInput.flagged
    · rw [if_pos hf]
      exact ⟨rfl, fun hmf => absurd hf (by simp [hmf])⟩
    · rw [if_neg hf, if_pos rfl]
      split
      · exact ⟨rfl, fun _ => rfl⟩
      · exact ⟨rfl, fun _ => rfl⟩
  · intro raw
    unfold agentStep
    dsimp only
    split_ifs with h
    · exact ⟨by simp [h], fun _ => rfl⟩
    · refine ⟨⟨fun hc => absurd hc (by simp), fun hc => absurd hc h⟩, ?_⟩
      intro hc
      exact absurd hc (by simp)

/-- Claim C8 witness: mixed-case help and exit inputs against the neutral
oracle, and a padded mixed-case quit against the agent dispatcher. -/
theorem builtin_command_short_circuit_witness :
    (chatbotStep initState "HeLp" oracle0).2.chatCalls = 0 ∧
    (chatbotStep initState "Exit" oracle0).2.exited = true ∧
    (agentStep " QuIt ").exited = true ∧
    (agentStep " QuIt ").agentCalls = 0 :=
  ⟨(builtin_command_short_circuit.2.2.1 initState "HeLp" oracle0 (by decide)).1,
   (builtin_command_short_circuit.1 initState "Exit" oracle0).mpr (by decide),
   (builtin_command_short_circuit.2.2.2.2 " QuIt ").1.mpr (Or.inr (by decide)),
   (builtin_command_short_circuit.2.2.2.2 " QuIt ").2
     ((builtin_command_short_circuit.2.2.2.2 " QuIt ").1.mpr (Or.inr (by decide)))⟩

theorem classifyTurn_context_suffix (o : Oracle) (s1 : SState) :
    ∃ t : List Message, (classifyTurn o s1).1.context = s1.context ++ t ∧
      t.all (fun m => m.role != Role.system) = true := by
  unfold classifyTurn
  split
  · exact ⟨[], by simp⟩
  next msg heq =>
    dsimp only
    split
    · exact contentStep_context o s1 msg
    · obtain ⟨t, ht, ha⟩ := contentStep_context o s1 msg
      refine ⟨t, ?_, ha⟩
      rw [dispatchFC_context, ht]

theorem chatbotStep_context_suffix (s : SState) (raw : String) (o : Oracle) :
    ∃ t : List Message, (chatbotStep s raw o).1.context = s.context ++ t ∧
      t.all (fun m => m.role != Role.system) = true := by
  unfold chatbotStep
  dsimp only
  by_cases h1 : pyLower (pyStrip raw) = "exit"
  · rw [if_pos h1]
    exact ⟨[], by simp⟩
  rw [if_neg h1]
  by_cases h2 : pyLower (pyStrip raw) = "help"
  · rw [if_pos h2]
    exact ⟨[], by simp⟩
  rw [if_neg h2]
  by_cases h3 : o.modInput.flagged = true
  · rw [if_pos h3]
    exact ⟨[], by simp⟩
  rw [if_neg h3]
  by_cases h4 : pyLower (pyStrip raw) = "trending"
  · rw [if_pos h4]
    split
    · exact ⟨[], by simp⟩
    · exact ⟨[], by simp⟩
  rw [if_neg h4]
  by_cases he : pyStrip raw = ""
  · rw [if_pos he]
    exact classifyTurn_context_suffix o s
  · rw [if_neg he]
    obtain ⟨t, ht, ha⟩ := classifyTurn_context_suffix o
      { s with context := s.context ++ [⟨Role.user, pyStrip raw⟩] }
    refine ⟨⟨Role.user, pyStrip raw⟩ :: t, ?_, ?_⟩
    · rw [ht]
      simp
    · simp only [List.all_cons, ha, Bool.and_true]
      rfl

theorem runTurns_context_suffix :
    ∀ (turns : List (String × Oracle)) (s : SState),
      ∃ t : List Message, (runTurns s turns).context = s.context ++ t ∧
        t.all (fun m => m.role != Role.system) = true := by
  intro turns
  induction turns with
  | nil => exact fun s => ⟨[], by simp [runTurns], rfl⟩
  | cons tr rest ih =>
    intro s
    obtain ⟨t1, ht1, ha1⟩ := chatbotStep_context_suffix s tr.1 tr.2
    obtain ⟨t2, ht2, ha2⟩ := ih (chatbotStep s tr.1 tr.2).1
    refine ⟨t1 ++ t2, ?_, ?_⟩
    · show (runTurns (chatbotStep s tr.1 tr.2).1 rest).context = _
      rw [ht2, ht1, List.append_assoc]
    · simp only [List.all_append, ha1, ha2, Bool.and_self]

/-- Claim C9: each turn of the dispatch loop only ever appends to the
transcript, every appended message is a user or assistant message, and so
throughout a session the initial system message precedes all others and no
message is reordered or deleted. -/
theorem transcript_append_only :
    (∀ (s : SState) (raw : String) (o : Oracle),
        ∃ t : List Message, (chatbotStep s raw o).1.context = s.context ++ t ∧
          t.all (fun m => m.role != Role.system) = true) ∧
    (∀ turns : List (String × Oracle),
        ∃ t : List Message,
          (runTurns initState turns).context = Message.mk Role.system systemPrompt :: t ∧
          t.all (fun m => m.role != Role.system) = true) := by
  constructor
  · exact chatbotStep_context_suffix
  · intro turns
    obtain ⟨t, ht, ha⟩ := runTurns_context_suffix turns initState
    exact ⟨t, by simpa [initState] using ht, ha⟩

theorem get_weather_shape (city units : String) (key : Option String) (fmtT : ℤ → String)
    (net : Except String OWMResp) :
    (∃ m, (get_weather city units key fmtT net).1 = [("error", WVal.str m)]) ∨
    (∃ nm t f h de w ts, (get_weather city units key fmtT net).1 =
      [("city", WVal.str nm), ("temperature", WVal.num t), ("feels_like", WVal.num f),
       ("humidity", WVal.num h), ("description", WVal.str de), ("wind_speed", WVal.num w),
       ("timestamp", WVal.str ts)]) := by
  unfold get_weather
  split_ifs
  · exact Or.inl ⟨_, rfl⟩
  · exact Or.inl ⟨_, rfl⟩
  · exact Or.inl ⟨_, rfl⟩
  · cases net with
    | error e => exact Or.inl ⟨_, rfl⟩
    | ok data =>
      obtain ⟨nm, mn, wl, wd, t⟩ := data
      rcases nm with _ | nm
      · exact Or.inl ⟨_, rfl⟩
      rcases mn with _ | mn
      · exact Or.inl ⟨_, rfl⟩
      rcases wl with _ | wl
      · exact Or.inl ⟨_, rfl⟩
      rcases wd with _ | wd
      · exact Or.inl ⟨_, rfl⟩
      rcases t with _ | t
      · exact Or.inl ⟨_, rfl⟩
      obtain ⟨mt, mf, mh⟩ := mn
      obtain ⟨ws⟩ := wd
      rcases mt with _ | mt
      · exact Or.inl ⟨_, rfl⟩
      rcases mf with _ | mf
      · exact Or.inl ⟨_, rfl⟩
      rcases mh with _ | mh
      · exact Or.inl ⟨_, rfl⟩
      rcases ws with _ | ws
      · exact Or.inl ⟨_, rfl⟩
      rcases wl with _ | ⟨item, rest⟩
      · exact Or.inl ⟨_, rfl⟩
      obtain ⟨d⟩ := item
      rcases d with _ | d
      · exact Or.inl ⟨_, rfl⟩
      exact Or.inr ⟨nm, mt, mf, mh, pyCapitalize d, ws, fmtT t, rfl⟩

/-- Claim C10: get_weather always returns a non-empty dictionary — the
seven-field report or a single-key error dictionary — never a falsy value,
so the weather branch's falsy-check fallback message is unreachable, and on
a provider failure the renderer's read of the temperature field finds
nothing in the error dictionary and the branch ends in the caught KeyError. -/
theorem weather_never_falsy :
    (∀ (city units : String) (key : Option String) (fmtT : ℤ → String)
        (net : Except String OWMResp),
        (∃ m, (get_weather city units key fmtT net).1 = [("error", WVal.str m)]) ∨
        (∃ nm t f h de w ts, (get_weather city units key fmtT net).1 =
          [("city", WVal.str nm), ("temperature", WVal.num t), ("feels_like", WVal.num f),
           ("humidity", WVal.num h), ("description", WVal.str de), ("wind_speed", WVal.num w),
           ("timestamp", WVal.str ts)])) ∧
    (∀ (city units : String) (key : Option String) (fmtT : ℤ → String)
        (net : Except String OWMResp),
        (get_weather city units key fmtT net).1 ≠ []) ∧
    (∀ (city units : String) (key : Option String) (fmtT : ℤ → String)
        (net : Except String OWMResp) (r : String),
        renderWeatherReply city units (get_weather city units key fmtT net).1 ≠
          WOutcome.fallbackMsg r) ∧
    (∀ (city units : String) (key : Option String) (fmtT : ℤ → String) (e : String),
        dictFind (get_weather city units key fmtT (Except.error e)).1 "temperature" = none ∧
        renderWeatherReply city units (get_weather city units key fmtT (Except.error e)).1 =
          WOutcome.keyError) := by
  refine ⟨get_weather_shape, ?_, ?_, ?_⟩
  · intro city units key fmtT net
    rcases get_weather_shape city units key fmtT net with ⟨m, hd⟩ | ⟨nm, t, f, h, de, w, ts, hd⟩ <;>
      simp [hd]
  · intro city units key fmtT net r
    rcases get_weather_shape city units key fmtT net with ⟨m, hd⟩ | ⟨nm, t, f, h, de, w, ts, hd⟩ <;>
      rw [hd] <;>
      simp [renderWeatherReply, dictFind]
  · intro city units key fmtT e
    unfold get_weather
    split_ifs <;> simp [renderWeatherReply, dictFind]
